import Mathlib

/-!
# MathSTK-Ex: verification of the exercise generation, grading and
plan/usage-accounting core

Shallow embedding of the arithmetic-exercise core of `src/main.py`:
the exercise generator (`generate_exercise`), the answer grader of the
`/answers` route, the plan/usage tracker (`can_use_plan`, `track_usage`),
the monthly-expiry check of the index route, and the plan-activation
transitions (`choose_plan`, `update_activation_after_payment`).

Python conventions used throughout the embedding:
* Python `int` is modelled by `ℤ` (arbitrary precision, no overflow);
* a Python dict access `d["k"]` that can fail raises `KeyError`; fallible
  code is modelled with `Except PyErr`;
* `random.randint(lo, hi)` draws are passed in as explicit arguments,
  constrained by a `validDraws` predicate stating each draw lies in the
  interval the source passes to `randint` (both endpoints inclusive);
* `datetime` timestamps are modelled as rational numbers of days, so
  `timedelta(days=30)` is `+ 30` and `datetime.now() > start + ...`
  is a strict `<` on `ℚ`;
* Python's float `round` (round-half-to-even) is modelled exactly over `ℚ`.
-/

set_option autoImplicit false

deriving instance DecidableEq for Except

namespace MathSTK

/-- Python exceptions the embedded core can raise. -/
inductive PyErr where
  | keyError
  | zeroDivisionError
  deriving DecidableEq, Repr

/-- The five difficulty tiers (`level` strings in `main.py`). -/
inductive Level where
  | easy
  | intermediate
  | hard
  | veryHard
  | expert
  deriving DecidableEq, Repr

/-- The four operation categories accepted by `generate_exercise`. -/
inductive Operation where
  | addition
  | subtraction
  | multiplication
  | division
  deriving DecidableEq, Repr

/-- One generated exercise: the dict
`{'a': .., 'b': .., 'op': .., 'result': .., 'res_len': ..}`
returned by `generate_exercise`.  The `op` field is the operator symbol
string exactly as the source stores it. -/
structure Exercise where
  a : ℤ
  b : ℤ
  op : String
  result : ℤ
  res_len : ℕ
  deriving DecidableEq, Repr

/-- Python `len(str(m))` for a natural number `m` (Python decimal digit count). -/
def natStrLen (m : ℕ) : ℕ :=
  if m = 0 then 1 else (Nat.digits 10 m).length

/-- Python `len(str(n))` for an integer `n`: a leading minus sign counts. -/
def strLen (n : ℤ) : ℕ :=
  if n < 0 then 1 + natStrLen n.natAbs else natStrLen n.natAbs

/-- The `[low, high]` range `generate_exercise` uses for addition and
subtraction, per tier (`main.py` lines 246-255). -/
def addSubRange : Level → ℤ × ℤ
  | .easy => (0, 10)
  | .intermediate => (0, 50)
  | .hard => (0, 100)
  | .veryHard => (0, 200)
  | .expert => (0, 1000000)

/-- The `[low, high]` range for multiplication, per tier
(`main.py` lines 266-275). -/
def mulRange : Level → ℤ × ℤ
  | .easy => (0, 5)
  | .intermediate => (0, 10)
  | .hard => (0, 20)
  | .veryHard => (0, 30)
  | .expert => (0, 1000)

/-- The divisor range `[b_low, b_high]` and quotient range `[q_low, q_high]`
for division, per tier (`main.py` lines 281-290). -/
def divRanges : Level → (ℤ × ℤ) × (ℤ × ℤ)
  | .easy => ((1, 5), (0, 5))
  | .intermediate => ((1, 10), (0, 10))
  | .hard => ((1, 20), (0, 20))
  | .veryHard => ((1, 30), (0, 30))
  | .expert => ((1, 100), (0, 10000))

/-- The function `generate_exercise(operation, level)` from `main.py` lines 244-294, with
the two `random.randint` draws made explicit: `r1` is the first draw and
`r2` the second, in source order.  For addition/subtraction/multiplication
`r1` is operand `a`; for division `r1` is the divisor `b` and `r2` the
quotient, and `a` is constructed as `b * quotient`. -/
def generate_exercise (operation : Operation) (level : Level) (r1 r2 : ℤ) :
    Exercise :=
  match operation with
  | .addition =>
      { a := r1, b := r2, op := "+", result := r1 + r2
        res_len := strLen (r1 + r2) }
  | .subtraction =>
      { a := r1, b := r2, op := "-", result := r1 - r2
        res_len := strLen (r1 - r2) }
  | .multiplication =>
      { a := r1, b := r2, op := "×", result := r1 * r2
        res_len := strLen (r1 * r2) }
  | .division =>
      { a := r1 * r2, b := r1, op := "÷", result := r2
        res_len := strLen r2 }

/-- The guarantee `random.randint` gives on the two draws consumed by
`generate_exercise`, in source order: each draw lies in the inclusive
interval the source passes to `randint`.  For subtraction the second
interval is `[low, a]`, so it depends on the first draw. -/
def validDraws (operation : Operation) (level : Level) (r1 r2 : ℤ) : Bool :=
  match operation with
  | .addition =>
      let (lo, hi) := addSubRange level
      lo ≤ r1 && r1 ≤ hi && lo ≤ r2 && r2 ≤ hi
  | .subtraction =>
      let (lo, hi) := addSubRange level
      lo ≤ r1 && r1 ≤ hi && lo ≤ r2 && r2 ≤ r1
  | .multiplication =>
      let (lo, hi) := mulRange level
      lo ≤ r1 && r1 ≤ hi && lo ≤ r2 && r2 ≤ hi
  | .division =>
      let ((bLo, bHi), (qLo, qHi)) := divRanges level
      bLo ≤ r1 && r1 ≤ bHi && qLo ≤ r2 && r2 ≤ qHi

/-! ## Plan / usage tracker (`main.py` lines 1098-1118) -/

/-- The per-account `usage_count` dict
`{"easy": .., "intermediate": .., "hard": .., "very hard": .., "expert": ..,
"total": ..}`.  Counts are Python non-negative ints in practice, modelled
as `ℕ`. -/
structure Usage where
  easy : ℕ
  intermediate : ℕ
  hard : ℕ
  veryHard : ℕ
  expert : ℕ
  total : ℕ
  deriving DecidableEq, Repr

/-- Read access `usage_count[level]` for a tier key. -/
def Usage.get (uc : Usage) : Level → ℕ
  | .easy => uc.easy
  | .intermediate => uc.intermediate
  | .hard => uc.hard
  | .veryHard => uc.veryHard
  | .expert => uc.expert

/-- Increment `usage_count[level] += 1` for a tier key. -/
def Usage.incLevel (uc : Usage) : Level → Usage
  | .easy => { uc with easy := uc.easy + 1 }
  | .intermediate => { uc with intermediate := uc.intermediate + 1 }
  | .hard => { uc with hard := uc.hard + 1 }
  | .veryHard => { uc with veryHard := uc.veryHard + 1 }
  | .expert => { uc with expert := uc.expert + 1 }

/-- Increment `usage_count["total"] += 1`. -/
def Usage.incTotal (uc : Usage) : Usage :=
  { uc with total := uc.total + 1 }

/-- The all-zero `usage_count` dict the source installs with `setdefault`. -/
def defaultUsage : Usage :=
  { easy := 0, intermediate := 0, hard := 0, veryHard := 0, expert := 0
    total := 0 }

/-- One account record (`users[email]` in `main.py`), restricted to the
fields the plan/usage core reads or writes.  An absent dict key is `none`.
`plan` is kept as the raw string the source stores ("free", "monthly",
"twenty"); `plan_start` is a timestamp in days. -/
structure UserData where
  plan : Option String
  plan_start : Option ℚ
  usage_count : Option Usage
  activation_id : Option String
  birth_date : Option String
  deriving DecidableEq, Repr

/-- The dict `user_data.setdefault("usage_count", {...all zeros...})` the
tracker works on. -/
def UserData.usageOrDefault (u : UserData) : Usage :=
  u.usage_count.getD defaultUsage

/-- The function `can_use_plan(email, level)` from `main.py` lines 1098-1107, as a
function of the account record.  The source first materialises
`usage_count` via `setdefault`, then reads `user_data["plan"]`: a record
without a `plan` key raises `KeyError`.  An unrecognised plan string falls
through to `return False`. -/
def can_use_plan (u : UserData) (level : Level) : Except PyErr Bool :=
  let uc := u.usageOrDefault
  match u.plan with
  | none => .error .keyError
  | some p =>
      if p = "free" then .ok (decide (uc.get level < 1))
      else if p = "monthly" then .ok true
      else if p = "twenty" then .ok (decide (uc.total < 20))
      else .ok false

/-- The function `track_usage(email, level)` from `main.py` lines 1109-1118, returning
the updated account record.  As in the source, `setdefault` materialises
the `usage_count` dict before the plan branch, so even a plan with no
branch (e.g. "monthly") leaves the record with a materialised dict; a
record without a `plan` key raises `KeyError`. -/
def track_usage (u : UserData) (level : Level) : Except PyErr UserData :=
  let uc := u.usageOrDefault
  match u.plan with
  | none => .error .keyError
  | some p =>
      if p = "free" then
        .ok { u with usage_count := some (uc.incLevel level) }
      else if p = "twenty" then
        .ok { u with usage_count := some ((uc.incTotal).incLevel level) }
      else
        .ok { u with usage_count := some uc }

/-- Iterated `track_usage` over a list of tier requests, in order. -/
def trackList (u : UserData) : List Level → Except PyErr UserData
  | [] => .ok u
  | t :: ts =>
      match track_usage u t with
      | .error e => .error e
      | .ok u' => trackList u' ts

/-! ## Orchestrator-level monthly expiry check (`main.py` lines 1170-1177)
and plan activation transitions (lines 1265-1267, 1300-1314) -/

/-- The monthly-expiry fragment of `index_get` (`main.py` lines 1170-1177):
for a record whose plan is "monthly", if `datetime.now()` is strictly
later than `plan_start + timedelta(days=30)` the `plan` and `plan_start`
keys are popped; otherwise the record is untouched.  Reading either key
when absent raises `KeyError` (the route checks `"plan" in user_data`
before reaching this fragment). -/
def index_expiry_check (u : UserData) (now : ℚ) : Except PyErr UserData :=
  match u.plan with
  | none => .error .keyError
  | some p =>
      if p = "monthly" then
        match u.plan_start with
        | none => .error .keyError
        | some start =>
            if start + 30 < now then
              .ok { u with plan := none, plan_start := none }
            else .ok u
      else .ok u

/-- The accepted-plan mutation of the `choose_plan` POST handler
(`main.py` lines 1265-1266): store the chosen plan string and
`setdefault` the `usage_count` dict (an existing dict is left untouched;
an absent one is filled with zeros).  In the source only "free" reaches
this point directly, but the mutation is uniform in the plan string. -/
def choose_plan_apply (u : UserData) (plan : String) : UserData :=
  { u with plan := some plan
           usage_count := some u.usageOrDefault }

/-- The function `update_activation_after_payment(plan)` from `main.py` lines 1300-1314,
as a function of the account record.  `now` is the activation timestamp
(in days) and `now_str`/`email` feed the `activation_id` string; neither
branch touches `usage_count`. -/
def update_activation_after_payment (u : UserData) (plan : String)
    (now : ℚ) (now_str email : String) : UserData :=
  if plan = "monthly" then
    { u with plan := some "monthly"
             plan_start := some now
             activation_id := some (email ++ "_" ++ now_str) }
  else if plan = "twenty" then
    { u with plan := some "twenty"
             activation_id :=
               some (email ++ "_" ++ u.birth_date.getD "unknown" ++ "_"
                       ++ now_str) }
  else u

/-! ## Answer grader (`/answers` route, `main.py` lines 1505-1558)

The route reads, per submitted item, the raw answer string
`request.form.get(f"{op}_{i}")` (which may be absent), the client-echoed
operands `a`, `b` and the operator symbol string, recomputes the expected
result and compares. -/

/-- Characters Python's `str.strip()` (and `int()`) remove, restricted to
ASCII whitespace; the embedding scopes `int()` to ASCII input. -/
def isPySpace (c : Char) : Bool :=
  c = ' ' || c = '\t' || c = '\n' || c = '\r' || c = '\x0b' || c = '\x0c'

/-- Strip leading and trailing Python whitespace from a character list. -/
def stripChars (l : List Char) : List Char :=
  ((l.dropWhile isPySpace).reverse.dropWhile isPySpace).reverse

/-- Python `s.strip()` on a string. -/
def pyStrip (s : String) : String :=
  String.mk (stripChars s.data)

/-- Continuation of the digit grammar of a Python integer literal after
its first digit: digits, with single underscores allowed only between
digits. -/
def okDigitTail : List Char → Bool
  | [] => true
  | c :: rest =>
      if c.isDigit then okDigitTail rest
      else if c = '_' then
        match rest with
        | [] => false
        | d :: rest2 => d.isDigit && okDigitTail rest2
      else false

/-- The unsigned-digits part of a Python `int()` literal: non-empty,
starts with a digit, underscores only between digits. -/
def okDigits : List Char → Bool
  | [] => false
  | c :: rest => c.isDigit && okDigitTail rest

/-- Decimal value of a digit list, skipping grouping underscores. -/
def digitsValue (l : List Char) : ℕ :=
  l.foldl (fun acc c => if c = '_' then acc else 10 * acc + (c.toNat - '0'.toNat)) 0

/-- Python `int(s)` on an ASCII decimal string: strip whitespace, an
optional sign, then underscore-grouped digits; `none` is `ValueError`. -/
def pyInt (s : String) : Option ℤ :=
  match stripChars s.data with
  | '+' :: rest => if okDigits rest then some (digitsValue rest) else none
  | '-' :: rest => if okDigits rest then some (-(digitsValue rest : ℤ)) else none
  | l => if okDigits l then some (digitsValue l) else none

/-- A normalised submitted answer: either the sentinel string
`"Not answered"` or a parsed integer. -/
inductive Answer where
  | notAnswered
  | val (n : ℤ)
  deriving DecidableEq, Repr

/-- The answer-normalisation step of the `/answers` loop (`main.py` lines
1528-1535): an absent or whitespace-only answer, or one `int()` rejects,
becomes `"Not answered"`; the `except` swallows the parse failure, so
normalisation is total and never raises. -/
def normalize_answer (ans : Option String) : Answer :=
  match ans with
  | none => .notAnswered
  | some s =>
      if pyStrip s = "" then .notAnswered
      else
        match pyInt s with
        | some n => .val n
        | none => .notAnswered

/-- The expected-result recomputation of the `/answers` loop (`main.py`
lines 1539-1548): dispatch on the operator symbol string; division is
Python floor division `a // b` (`Int.fdiv`), unguarded, so `b = 0` raises
`ZeroDivisionError`; an unknown symbol yields `correct = None`. -/
def compute_correct (a b : ℤ) (sym : String) : Except PyErr (Option ℤ) :=
  if sym = "+" then .ok (some (a + b))
  else if sym = "-" then .ok (some (a - b))
  else if sym = "*" || sym = "×" then .ok (some (a * b))
  else if sym = "/" || sym = "÷" then
    if b = 0 then .error .zeroDivisionError else .ok (some (a.fdiv b))
  else .ok none

/-- One submitted item of the `/answers` form: the raw answer field (absent
is `none`) and the client-echoed operands and operator symbol. -/
structure SubItem where
  ans : Option String
  a : ℤ
  b : ℤ
  sym : String
  deriving DecidableEq, Repr

/-- Grading of one item (`main.py` lines 1528-1557): the normalised answer
together with its correctness flag.  `"Not answered"` is always graded
incorrect; an answered value is correct iff it equals the recomputed
result (comparison with `None` for an unknown operator is `False`, as in
Python). -/
def grade_item (it : SubItem) : Except PyErr (Answer × Bool) :=
  match compute_correct it.a it.b it.sym with
  | .error e => .error e
  | .ok correct =>
      match normalize_answer it.ans with
      | .notAnswered => .ok (.notAnswered, false)
      | .val n => .ok (.val n, decide (some n = correct))

/-- The counter accumulation of the `/answers` loop: `total_questions` is
incremented for every item, `total_correct` only on the `Well done`
branch. -/
def tally : List SubItem → Except PyErr (ℕ × ℕ)
  | [] => .ok (0, 0)
  | it :: rest =>
      match grade_item it with
      | .error e => .error e
      | .ok (_, c) =>
          match tally rest with
          | .error e => .error e
          | .ok (tq, tc) => .ok (tq + 1, tc + (if c then 1 else 0))

/-- Python's built-in `round` (round-half-to-even), modelled exactly on
`ℚ`; `main.py` computes the score through float arithmetic, which the
embedding models by exact rational arithmetic. -/
def pyRound (q : ℚ) : ℤ :=
  if q - ⌊q⌋ < 1 / 2 then ⌊q⌋
  else if 1 / 2 < q - ⌊q⌋ then ⌊q⌋ + 1
  else if ⌊q⌋ % 2 = 0 then ⌊q⌋ else ⌊q⌋ + 1

/-- The aggregate score of `main.py` line 1558:
`round((total_correct / total_questions) * 100) if total_questions > 0
else 0`. -/
def score (total_correct total_questions : ℕ) : ℤ :=
  if 0 < total_questions then
    pyRound ((total_correct : ℚ) / (total_questions : ℚ) * 100)
  else 0

/-! ## Theorems -/

/-- In every tier, the divisor range passed to `randint` starts at 1, so
the drawn divisor is at least 1. -/
theorem divisor_ge_one {level : Level} {r1 r2 : ℤ}
    (h : validDraws .division level r1 r2 = true) : 1 ≤ r1 := by
  cases level <;> (simp [validDraws, divRanges] at h; omega)

/-- C2: for every difficulty tier, a division exercise produced by
`generate_exercise` satisfies `a = b × result` with no remainder (floor
division of `a` by `b` recovers `result` exactly), and the reported
`result` is the drawn quotient. -/
theorem C2_division_exact (level : Level) (r1 r2 : ℤ)
    (h : validDraws .division level r1 r2 = true) :
    (generate_exercise .division level r1 r2).a =
        (generate_exercise .division level r1 r2).b *
          (generate_exercise .division level r1 r2).result ∧
      ((generate_exercise .division level r1 r2).a).fdiv
          ((generate_exercise .division level r1 r2).b) =
        (generate_exercise .division level r1 r2).result ∧
      (generate_exercise .division level r1 r2).result = r2 := by
  have hb : (1 : ℤ) ≤ r1 := divisor_ge_one h
  refine ⟨rfl, ?_, rfl⟩
  exact Int.mul_fdiv_cancel_left r2 (by omega)

/-- Closed instance of `C2_division_exact` at tier `easy` with divisor
draw 2 and quotient draw 3. -/
theorem C2_division_exact_witness :
    validDraws .division .easy 2 3 = true ∧
      ((generate_exercise .division .easy 2 3).a =
          (generate_exercise .division .easy 2 3).b *
            (generate_exercise .division .easy 2 3).result ∧
        ((generate_exercise .division .easy 2 3).a).fdiv
            ((generate_exercise .division .easy 2 3).b) =
          (generate_exercise .division .easy 2 3).result ∧
        (generate_exercise .division .easy 2 3).result = 3) :=
  ⟨by decide, C2_division_exact .easy 2 3 (by decide)⟩

/-- C3: for every difficulty tier, a subtraction exercise produced by
`generate_exercise` has `b ≤ a` and `result = a − b ≥ 0`. -/
theorem C3_subtraction_nonneg (level : Level) (r1 r2 : ℤ)
    (h : validDraws .subtraction level r1 r2 = true) :
    (generate_exercise .subtraction level r1 r2).b ≤
        (generate_exercise .subtraction level r1 r2).a ∧
      (generate_exercise .subtraction level r1 r2).result =
        (generate_exercise .subtraction level r1 r2).a -
          (generate_exercise .subtraction level r1 r2).b ∧
      0 ≤ (generate_exercise .subtraction level r1 r2).result := by
  cases level <;>
      simp only [validDraws, addSubRange, Bool.and_eq_true, decide_eq_true_eq]
        at h <;>
    exact ⟨show r2 ≤ r1 by omega, rfl, show (0 : ℤ) ≤ r1 - r2 by omega⟩

/-- Closed instance of `C3_subtraction_nonneg` at tier `hard` with draws
`a = 57`, `b = 19`. -/
theorem C3_subtraction_nonneg_witness :
    validDraws .subtraction .hard 57 19 = true ∧
      ((generate_exercise .subtraction .hard 57 19).b ≤
          (generate_exercise .subtraction .hard 57 19).a ∧
        (generate_exercise .subtraction .hard 57 19).result =
          (generate_exercise .subtraction .hard 57 19).a -
            (generate_exercise .subtraction .hard 57 19).b ∧
        0 ≤ (generate_exercise .subtraction .hard 57 19).result) :=
  ⟨by decide, C3_subtraction_nonneg .hard 57 19 (by decide)⟩

/-- C10: for every difficulty tier, a server-generated division exercise
has divisor `b ≥ 1`, and the grader's unguarded floor division `a // b`
therefore does not raise `ZeroDivisionError` on it and recomputes exactly
the reported result. -/
theorem C10_division_safe (level : Level) (r1 r2 : ℤ)
    (h : validDraws .division level r1 r2 = true) :
    1 ≤ (generate_exercise .division level r1 r2).b ∧
      compute_correct (generate_exercise .division level r1 r2).a
          (generate_exercise .division level r1 r2).b "÷" =
        .ok (some (generate_exercise .division level r1 r2).result) := by
  have hb : (1 : ℤ) ≤ r1 := divisor_ge_one h
  refine ⟨hb, ?_⟩
  show compute_correct (r1 * r2) r1 "÷" = .ok (some r2)
  have hne : r1 ≠ 0 := by omega
  simp [compute_correct, hne, Int.mul_fdiv_cancel_left r2 hne]

/-- Closed instance of `C10_division_safe` at tier `expert` with divisor
draw 100 and quotient draw 10000. -/
theorem C10_division_safe_witness :
    validDraws .division .expert 100 10000 = true ∧
      (1 ≤ (generate_exercise .division .expert 100 10000).b ∧
        compute_correct (generate_exercise .division .expert 100 10000).a
            (generate_exercise .division .expert 100 10000).b "÷" =
          .ok (some (generate_exercise .division .expert 100 10000).result)) :=
  ⟨by decide, C10_division_safe .expert 100 10000 (by decide)⟩

/-! ### Usage-counter helper lemmas -/

/-- Incrementing a tier counter increments exactly that tier's count. -/
theorem Usage.get_incLevel_self (uc : Usage) (t : Level) :
    (uc.incLevel t).get t = uc.get t + 1 := by
  cases t <;> rfl

/-- Incrementing a tier counter leaves every other tier's count alone. -/
theorem Usage.get_incLevel_ne (uc : Usage) {t t' : Level} (h : t' ≠ t) :
    (uc.incLevel t).get t' = uc.get t' := by
  cases t <;> cases t' <;> simp_all [Usage.incLevel, Usage.get]

/-- Incrementing a tier counter leaves the total counter alone. -/
theorem Usage.total_incLevel (uc : Usage) (t : Level) :
    (uc.incLevel t).total = uc.total := by
  cases t <;> rfl

/-- An account record with no keys at all (fresh dict). -/
def noPlanUser : UserData :=
  { plan := none, plan_start := none, usage_count := none
    activation_id := none, birth_date := none }

/-- C1 counterexample: on a concrete account record with no `plan` key,
`can_use_plan` raises `KeyError` — it does not return `false`. -/
theorem C1_counterexample :
    can_use_plan noPlanUser Level.easy = .error .keyError ∧
      can_use_plan noPlanUser Level.easy ≠ .ok false := by
  decide

/-- C1 (amended): for every account whose record has no `plan` field and
every tier, `can_use_plan` raises `KeyError` — it never authorizes, but
it raises rather than returning `false` (the `false` return is reserved
for an unrecognised plan value; callers check for the missing field and
redirect to plan selection before calling). -/
theorem C1_no_plan_keyerror (u : UserData) (level : Level)
    (h : u.plan = none) :
    can_use_plan u level = .error .keyError := by
  simp [can_use_plan, h]

/-- Closed instance of `C1_no_plan_keyerror` on the fresh record. -/
theorem C1_no_plan_keyerror_witness :
    noPlanUser.plan = none ∧
      can_use_plan noPlanUser Level.hard = .error .keyError :=
  ⟨rfl, C1_no_plan_keyerror noPlanUser Level.hard rfl⟩

/-- On a free-plan record, `track_usage` bumps exactly the requested tier
counter of the (defaulted) usage dict. -/
theorem track_usage_free (u : UserData) (t : Level)
    (hp : u.plan = some "free") :
    track_usage u t =
      .ok { u with usage_count := some (u.usageOrDefault.incLevel t) } := by
  simp [track_usage, hp]

/-- C4: on the free plan, `can_use_plan` authorizes a tier iff that
tier's usage count is `< 1`; after one `track_usage` at tier `t`,
`can_use_plan` refuses `t` but still authorizes any other tier `t'`
whose count is 0. -/
theorem C4_free_per_tier (u u' : UserData) (t t' : Level)
    (hp : u.plan = some "free") (ht : track_usage u t = .ok u')
    (hne : t' ≠ t) (hz : u.usageOrDefault.get t' = 0) :
    (can_use_plan u t = .ok true ↔ u.usageOrDefault.get t < 1) ∧
      can_use_plan u' t = .ok false ∧ can_use_plan u' t' = .ok true := by
  rw [track_usage_free u t hp] at ht
  have hu' : u' = { u with usage_count := some (u.usageOrDefault.incLevel t) } :=
    (Except.ok.injEq _ _).mp ht.symm
  subst hu'
  refine ⟨?_, ?_, ?_⟩
  · simp [can_use_plan, hp]
  · simp [can_use_plan, hp, UserData.usageOrDefault,
      Usage.get_incLevel_self]
  · simp [can_use_plan, hp, UserData.usageOrDefault,
      Usage.get_incLevel_ne _ hne]
    exact hz

/-- A concrete free-plan record with a fresh usage dict. -/
def freeUser : UserData :=
  { plan := some "free", plan_start := none, usage_count := none
    activation_id := none, birth_date := none }

/-- Closed instance of `C4_free_per_tier`: one easy-tier use exhausts
`easy` but leaves `hard` authorized. -/
theorem C4_free_per_tier_witness :
    (can_use_plan freeUser .easy = .ok true ↔
        freeUser.usageOrDefault.get .easy < 1) ∧
      can_use_plan
          { freeUser with
              usage_count := some (freeUser.usageOrDefault.incLevel .easy) }
          .easy = .ok false ∧
      can_use_plan
          { freeUser with
              usage_count := some (freeUser.usageOrDefault.incLevel .easy) }
          .hard = .ok true :=
  C4_free_per_tier freeUser
    { freeUser with
        usage_count := some (freeUser.usageOrDefault.incLevel .easy) }
    .easy .hard rfl (by decide) (by decide) (by decide)

/-- On a twenty-plan record, `track_usage` bumps the total counter and the
requested tier counter of the (defaulted) usage dict. -/
theorem track_usage_twenty (u : UserData) (t : Level)
    (hp : u.plan = some "twenty") :
    track_usage u t =
      .ok { u with
              usage_count := some ((u.usageOrDefault.incTotal).incLevel t) } := by
  simp [track_usage, hp]

/-- Iterating `track_usage` over a twenty-plan record adds the number of
calls to the total counter and preserves the plan. -/
theorem trackList_twenty_total (ts : List Level) :
    ∀ u u' : UserData, u.plan = some "twenty" → trackList u ts = .ok u' →
      u'.usageOrDefault.total = u.usageOrDefault.total + ts.length ∧
        u'.plan = some "twenty" := by
  induction ts with
  | nil =>
      intro u u' hp ht
      simp only [trackList] at ht
      cases ht
      exact ⟨rfl, hp⟩
  | cons t ts ih =>
      intro u u' hp ht
      rw [trackList, track_usage_twenty u t hp] at ht
      obtain ⟨h1, h2⟩ :=
        ih { u with
               usage_count := some ((u.usageOrDefault.incTotal).incLevel t) }
          u' (by simpa using hp) ht
      refine ⟨?_, h2⟩
      rw [h1]
      simp only [UserData.usageOrDefault, Option.getD_some,
        Usage.total_incLevel, Usage.incTotal, List.length_cons]
      omega

/-- C5: on the fixed-count ("twenty") plan, `can_use_plan` authorizes a
tier iff the total usage counter is `< 20` — for every twenty-plan
account, whatever its current counters; each `track_usage` adds exactly
1 to the total counter and 1 to the requested tier counter, again for
every such account; and from a fresh total of 0, after 20 `track_usage`
calls in any tier mix, `can_use_plan` is `false` for every tier. -/
theorem C5_twenty_cap (u u₁ u' : UserData) (t t₁ : Level) (ts : List Level)
    (hp : u.plan = some "twenty")
    (h1 : track_usage u t₁ = .ok u₁)
    (ht : trackList u ts = .ok u') :
    (can_use_plan u t = .ok true ↔ u.usageOrDefault.total < 20) ∧
      u₁.usageOrDefault.total = u.usageOrDefault.total + 1 ∧
      u₁.usageOrDefault.get t₁ = u.usageOrDefault.get t₁ + 1 ∧
      (u.usageOrDefault.total = 0 → ts.length = 20 →
        can_use_plan u' t = .ok false) := by
  rw [track_usage_twenty u t₁ hp] at h1
  have hu₁ : u₁ =
      { u with usage_count := some ((u.usageOrDefault.incTotal).incLevel t₁) } :=
    (Except.ok.injEq _ _).mp h1.symm
  subst hu₁
  obtain ⟨htot, hplan⟩ := trackList_twenty_total ts u u' hp ht
  refine ⟨?_, ?_, ?_, ?_⟩
  · simp [can_use_plan, hp]
  · simp [UserData.usageOrDefault, Usage.total_incLevel, Usage.incTotal]
  · simp [UserData.usageOrDefault, Usage.get_incLevel_self]
    cases t₁ <;> rfl
  · intro h0 hlen
    simp [can_use_plan, hplan]
    rw [htot, h0, hlen]

/-- A concrete twenty-plan record with a fresh usage dict. -/
def twentyUser : UserData :=
  { plan := some "twenty", plan_start := none, usage_count := none
    activation_id := none, birth_date := none }

/-- A 20-call tier mix: ten easy, ten hard. -/
def twentyMix : List Level :=
  List.replicate 10 .easy ++ List.replicate 10 .hard

/-- The twenty-plan record after the `twentyMix` calls. -/
def twentyUserAfter : UserData :=
  { twentyUser with
      usage_count := some { easy := 10, intermediate := 0, hard := 10
                            veryHard := 0, expert := 0, total := 20 } }

/-- The twenty-plan record after a single easy-tier call. -/
def twentyUserOne : UserData :=
  { twentyUser with
      usage_count :=
        some ((twentyUser.usageOrDefault.incTotal).incLevel .easy) }

/-- Closed instance of `C5_twenty_cap` on the concrete 20-call mix. -/
theorem C5_twenty_cap_witness :
    (can_use_plan twentyUser .intermediate = .ok true ↔
        twentyUser.usageOrDefault.total < 20) ∧
      twentyUserOne.usageOrDefault.total =
        twentyUser.usageOrDefault.total + 1 ∧
      twentyUserOne.usageOrDefault.get .easy =
        twentyUser.usageOrDefault.get .easy + 1 ∧
      (twentyUser.usageOrDefault.total = 0 → twentyMix.length = 20 →
        can_use_plan twentyUserAfter .intermediate = .ok false) :=
  C5_twenty_cap twentyUser twentyUserOne twentyUserAfter .intermediate .easy
    twentyMix rfl (by decide) (by decide)

/-- C8: on the monthly plan, `can_use_plan` authorizes every tier
whatever the usage counts, and the orchestrator-level expiry check of the
index route invalidates the plan exactly when `now > plan_start + 30`
days: at exactly 30.0 days the record is untouched (still active), and
past 30 days the `plan` and `plan_start` fields are removed. -/
theorem C8_monthly_expiry (u : UserData) (start now : ℚ) (t : Level)
    (hp : u.plan = some "monthly") (hs : u.plan_start = some start) :
    can_use_plan u t = .ok true ∧
      (now ≤ start + 30 → index_expiry_check u now = .ok u) ∧
      (start + 30 < now →
        index_expiry_check u now =
          .ok { u with plan := none, plan_start := none }) := by
  refine ⟨by simp [can_use_plan, hp], ?_, ?_⟩
  · intro hle
    simp [index_expiry_check, hp, hs]
    intro hlt
    exact absurd hlt (not_lt.mpr hle)
  · intro hlt
    simp [index_expiry_check, hp, hs, hlt]

/-- A concrete monthly-plan record with nonzero usage counters, activated
at day 0. -/
def monthlyUser : UserData :=
  { plan := some "monthly", plan_start := some 0
    usage_count := some { easy := 3, intermediate := 1, hard := 0
                          veryHard := 0, expert := 7, total := 11 }
    activation_id := some "u@x_20250101000000", birth_date := none }

/-- Closed instance of `C8_monthly_expiry` at the 30.0-day boundary. -/
theorem C8_monthly_expiry_witness :
    can_use_plan monthlyUser .expert = .ok true ∧
      ((30 : ℚ) ≤ 0 + 30 → index_expiry_check monthlyUser 30 = .ok monthlyUser) ∧
      ((0 : ℚ) + 30 < 30 →
        index_expiry_check monthlyUser 30 =
          .ok { monthlyUser with plan := none, plan_start := none }) :=
  C8_monthly_expiry monthlyUser 0 30 .expert rfl rfl

/-- C9: both plan-activation transitions — the `choose_plan` mutation and
`update_activation_after_payment` — leave an existing `usage_count`
mapping unchanged: no per-tier or total counter is cleared or reset. -/
theorem C9_usage_preserved (u : UserData) (uc : Usage) (plan : String)
    (now : ℚ) (now_str email : String) (h : u.usage_count = some uc) :
    (choose_plan_apply u plan).usage_count = some uc ∧
      (update_activation_after_payment u plan now now_str email).usage_count =
        some uc := by
  constructor
  · simp [choose_plan_apply, UserData.usageOrDefault, h]
  · unfold update_activation_after_payment
    split_ifs <;> simp [h]

/-- Closed instance of `C9_usage_preserved`: activating "monthly" on the
used-up free record keeps its counters. -/
theorem C9_usage_preserved_witness :
    (choose_plan_apply monthlyUser "monthly").usage_count =
        some { easy := 3, intermediate := 1, hard := 0, veryHard := 0
               expert := 7, total := 11 } ∧
      (update_activation_after_payment monthlyUser "monthly" 5 "20250106000000"
          "u@x").usage_count =
        some { easy := 3, intermediate := 1, hard := 0, veryHard := 0
               expert := 7, total := 11 } :=
  C9_usage_preserved monthlyUser _ "monthly" 5 "20250106000000" "u@x" rfl

/-- C6: a submitted answer that is absent or that Python `int()` rejects
(which includes the empty and whitespace-only strings) is normalised to
the `"Not answered"` sentinel without raising, graded incorrect, and
counted in `total_questions` but not in `total_correct`. -/
theorem C6_unanswered (ans : Option String) (a b : ℤ) (sym : String)
    (co : Option ℤ) (rest : List SubItem) (tq tc : ℕ)
    (hbad : ans = none ∨
      ∃ s, ans = some s ∧ (pyStrip s = "" ∨ pyInt s = none))
    (hco : compute_correct a b sym = .ok co)
    (hrest : tally rest = .ok (tq, tc)) :
    normalize_answer ans = .notAnswered ∧
      grade_item ⟨ans, a, b, sym⟩ = .ok (.notAnswered, false) ∧
      tally (⟨ans, a, b, sym⟩ :: rest) = .ok (tq + 1, tc) := by
  have hnorm : normalize_answer ans = .notAnswered := by
    rcases hbad with h | ⟨s, hs, hempty | hpi⟩
    · rw [h]; rfl
    · rw [hs]
      simp [normalize_answer, hempty]
    · rw [hs]
      simp only [normalize_answer, hpi]
      split <;> rfl
  have hgi : grade_item ⟨ans, a, b, sym⟩ = .ok (.notAnswered, false) := by
    simp only [grade_item, hco, hnorm]
  refine ⟨hnorm, hgi, ?_⟩
  simp [tally, hgi, hrest]

/-- Closed instance of `C6_unanswered`: a garbage answer to a division
item is unanswered, incorrect, and counts 1 question, 0 correct. -/
theorem C6_unanswered_witness :
    normalize_answer (some "oops") = .notAnswered ∧
      grade_item ⟨some "oops", 6, 2, "÷"⟩ = .ok (.notAnswered, false) ∧
      tally [⟨some "oops", 6, 2, "÷"⟩] = .ok (0 + 1, 0) :=
  C6_unanswered (some "oops") 6 2 "÷" (some 3) [] 0 0
    (Or.inr ⟨"oops", rfl, Or.inr (by decide)⟩) (by decide) (by decide)

/-! ### Rounding lemmas for the score -/

/-- Nonnegativity: `pyRound` of a non-negative rational is non-negative. -/
theorem pyRound_nonneg {q : ℚ} (h : 0 ≤ q) : 0 ≤ pyRound q := by
  unfold pyRound
  have h0 : (0 : ℤ) ≤ ⌊q⌋ := Int.floor_nonneg.mpr h
  split_ifs <;> omega

/-- Upper bound: `pyRound` never exceeds an integer bound on its argument. -/
theorem pyRound_le {q : ℚ} {B : ℤ} (h : q ≤ (B : ℚ)) : pyRound q ≤ B := by
  unfold pyRound
  have hfl : ⌊q⌋ ≤ B := by
    have h' := Int.floor_le_floor h
    rwa [Int.floor_intCast] at h'
  have hq : (⌊q⌋ : ℚ) ≤ q := Int.floor_le q
  split_ifs with h1 h2 h3
  · exact hfl
  · have hlt : (⌊q⌋ : ℚ) < (B : ℚ) := by linarith
    have : ⌊q⌋ < B := by exact_mod_cast hlt
    omega
  · exact hfl
  · have hh : (1 : ℚ) / 2 ≤ q - ⌊q⌋ := le_of_not_lt h1
    have hlt : (⌊q⌋ : ℚ) < (B : ℚ) := by linarith
    have : ⌊q⌋ < B := by exact_mod_cast hlt
    omega

/-- Identity: `pyRound` is the identity on integers. -/
theorem pyRound_intCast (n : ℤ) : pyRound (n : ℚ) = n := by
  unfold pyRound
  rw [Int.floor_intCast, sub_self]
  norm_num

/-- C7: the aggregate score equals `round(100 × correct / total)` and lies
in `[0, 100]`; it is 0 when there are no questions (no division-by-zero),
100 when every answer is correct, and 25 for 1 correct of 4. -/
theorem C7_score_props (tc tq : ℕ) (h : tc ≤ tq) :
    0 ≤ score tc tq ∧ score tc tq ≤ 100 ∧
      (tq = 0 → score tc tq = 0) ∧
      (0 < tq → tc = tq → score tc tq = 100) ∧
      score 1 4 = 25 ∧
      score tc tq =
        (if 0 < tq then pyRound (100 * (tc : ℚ) / (tq : ℚ)) else 0) := by
  refine ⟨?_, ?_, ?_, ?_, ?_, ?_⟩
  · unfold score
    split_ifs with htq
    · exact pyRound_nonneg (by positivity)
    · exact le_refl 0
  · unfold score
    split_ifs with htq
    · have htq' : (0 : ℚ) < (tq : ℚ) := by exact_mod_cast htq
      have hdiv : (tc : ℚ) / (tq : ℚ) ≤ 1 := by
        rw [div_le_one htq']
        exact_mod_cast h
      have hb : (tc : ℚ) / (tq : ℚ) * 100 ≤ ((100 : ℤ) : ℚ) := by
        push_cast
        nlinarith [hdiv]
      exact pyRound_le hb
    · norm_num
  · intro h0
    simp [score, h0]
  · intro hpos heq
    subst heq
    have htq' : (tc : ℚ) ≠ 0 := by
      have : (0 : ℚ) < (tc : ℚ) := by exact_mod_cast hpos
      exact ne_of_gt this
    unfold score
    rw [if_pos hpos, div_self htq', one_mul,
      show (100 : ℚ) = ((100 : ℤ) : ℚ) by norm_num, pyRound_intCast]
  · unfold score
    rw [if_pos (by norm_num),
      show ((1 : ℕ) : ℚ) / ((4 : ℕ) : ℚ) * 100 = ((25 : ℤ) : ℚ) by norm_num,
      pyRound_intCast]
  · unfold score
    split_ifs with htq
    · exact congrArg pyRound (by ring)
    · rfl

/-- Closed instance of `C7_score_props` at 3 correct of 4. -/
theorem C7_score_props_witness :
    0 ≤ score 3 4 ∧ score 3 4 ≤ 100 ∧
      ((4 : ℕ) = 0 → score 3 4 = 0) ∧
      (0 < 4 → (3 : ℕ) = 4 → score 3 4 = 100) ∧
      score 1 4 = 25 ∧
      score 3 4 =
        (if 0 < 4 then pyRound (100 * ((3 : ℕ) : ℚ) / ((4 : ℕ) : ℚ)) else 0) :=
  C7_score_props 3 4 (by decide)

end MathSTK
